import Mathlib

/-!
Shallow embedding of `src/app.py`, a single-file Flask service that predicts
a Customer Acquisition Cost (CAC) by calling an external chat-completion API
five times, parsing each response body as a decimal number, averaging the
five values and formatting the average to two decimal places.

Modelling conventions:
* Python floats are modelled by exact rationals (`Rat`); `float(s)` on the
  decimal literals relevant here is modelled by `pyFloat`, and the format
  specifier `:.2f` by `format2` (round half to even at two decimals).
* All internal arithmetic is phrased through `mkRat` and integer
  operations so that every definition evaluates on concrete inputs;
  bridge lemmas (`ratAdd_eq`, `ratDivNat_eq`) relate these to the
  ordinary field operations on `Rat` used in the theorem statements.
* The external API is an oracle `api : Nat → ApiResponse` giving the
  response to the i-th outbound call; `ApiResponse.content` is the string
  extracted by the source as `choices[0].message.content` (defaulting to
  the empty string), and `ApiResponse.text` is the raw body used in error
  messages.
* Exceptions are modelled by `Except String`: the `raise`d message is the
  error value, and the handler boundary that catches `Exception` maps the
  error to an HTTP 500 reply.
* `request.get_json()` is modelled by `GetJsonResult`: `raises msg` is the
  case where parsing the body raises (a malformed JSON body makes Flask
  raise `BadRequest`, an `Exception` subclass caught by the generic
  `except Exception` clause), and `returns data` is the case where it
  returns `None` (`data = none`, e.g. a request without a JSON body) or a
  JSON object (`data = some fields`, an association list of string
  fields).
-/

/-- An HTTP response from the external completion API, as the source
consumes it: the status code, the raw body text (used only in error
messages), and the extracted `choices[0].message.content` string. -/
structure ApiResponse where
  status_code : Nat
  text : String
  content : String
deriving DecidableEq, Repr

/-- One chat message of the outbound payload. -/
structure ChatMessage where
  role : String
  content : String
deriving DecidableEq, Repr

/-- The JSON payload the source posts to the completion API on each of the
five calls (lines 37-52 of `app.py`). -/
structure Payload where
  model : String
  messages : List ChatMessage
  max_tokens : Nat
  temperature : Rat
  seed : Nat
deriving DecidableEq, Repr

/-- Models Python `str.strip()` with no arguments: remove leading and
trailing whitespace. Implemented on the character list so that it evaluates
by kernel reduction. -/
def pyStrip (s : String) : String :=
  String.mk (((s.toList.dropWhile Char.isWhitespace).reverse.dropWhile Char.isWhitespace).reverse)

/-- Digit string to natural number, most significant digit first. -/
def digitsToNat (ds : List Char) : Nat :=
  ds.foldl (fun a c => a * 10 + (c.toNat - 48)) 0

/-- Models Python `float(s)` on decimal literals: optional sign, an integer
part and/or a fractional part (at least one digit overall), and an optional
exponent. Returns `none` when the string is not such a literal (Python
raises `ValueError` there). The exotic inputs Python also accepts
(`inf`, `nan`, underscores, surrounding whitespace) do not occur after the
strip step of a numeric model reply and are mapped to `none`. -/
def pyFloat (s : String) : Option Rat := Id.run do
  let cs := s.toList
  let (sgn, cs1) : Int × List Char :=
    match cs with
    | '-' :: r => (-1, r)
    | '+' :: r => (1, r)
    | _ => (1, cs)
  let ip := cs1.takeWhile Char.isDigit
  let cs2 := cs1.drop ip.length
  let (fp, cs3) : List Char × List Char :=
    match cs2 with
    | '.' :: r => (r.takeWhile Char.isDigit, r.drop (r.takeWhile Char.isDigit).length)
    | _ => ([], cs2)
  if ip.isEmpty && fp.isEmpty then
    return none
  let m : Nat := digitsToNat (ip ++ fp)
  match cs3 with
  | [] => return some (mkRat (sgn * m) ((10 : Nat) ^ fp.length))
  | e :: r =>
    if e = 'e' || e = 'E' then
      let (epos, r1) : Bool × List Char :=
        match r with
        | '-' :: rr => (false, rr)
        | '+' :: rr => (true, rr)
        | _ => (true, r)
      let ed := r1.takeWhile Char.isDigit
      let r2 := r1.drop ed.length
      if ed.isEmpty || !r2.isEmpty then
        return none
      if epos then
        return some (mkRat (sgn * m * (10 : Int) ^ digitsToNat ed) ((10 : Nat) ^ fp.length))
      else
        return some (mkRat (sgn * m) ((10 : Nat) ^ (fp.length + digitsToNat ed)))
    else
      return none

/-- Round the fraction `n / d` (with `d` positive) to the nearest integer,
ties to even: the rounding Python applies in fixed-point float formatting. -/
def roundHalfEven (n : Int) (d : Nat) : Int :=
  let f := n.fdiv d
  let r2 := 2 * (n - f * d)
  if r2 < (d : Int) then f
  else if (d : Int) < r2 then f + 1
  else if f % 2 = 0 then f else f + 1

/-- Two-digit zero-padded rendering of a remainder below 100. -/
def twoDigits (k : Nat) : String :=
  (if k < 10 then "0" else "") ++ toString k

/-- Models the Python format specifier `:.2f` applied to the (rationally
modelled) value: round to two decimal places, half to even, and render with
exactly two fractional digits. -/
def format2 (q : Rat) : String :=
  let n := roundHalfEven (q.num * 100) q.den
  let m := n.natAbs
  (if n < 0 then "-" else "") ++ toString (m / 100) ++ "." ++ twoDigits (m % 100)

/-- Addition of two rationals written through `mkRat`; equal to `a + b` by
`ratAdd_eq`. Used so the model evaluates by kernel reduction. -/
def ratAdd (a b : Rat) : Rat :=
  mkRat (a.num * b.den + b.num * a.den) (a.den * b.den)

/-- Division of a rational by a natural number written through `mkRat`;
equal to `a / n` by `ratDivNat_eq`. -/
def ratDivNat (a : Rat) (n : Nat) : Rat :=
  mkRat a.num (a.den * n)

/-- Handling of one external response within an iteration (lines 55-71 of
`app.py`): a status other than 200 raises; then the extracted content is
stripped; an empty string raises; a string that `float` rejects raises
`Invalid CAC`; a negative parse raises `CAC cannot be negative`, which the
inner `except ValueError` re-raises as `Invalid CAC`. On success the parsed
value is the one appended to `cacs`. -/
def processResponse (r : ApiResponse) : Except String Rat :=
  if r.status_code ≠ 200 then
    Except.error ("OpenAI API error: " ++ toString r.status_code ++ " - " ++ r.text)
  else
    let cac := pyStrip r.content
    if cac = "" then Except.error "Empty response from model"
    else
      match pyFloat cac with
      | none => Except.error ("Invalid CAC: " ++ cac)
      | some v =>
        if v < 0 then Except.error ("Invalid CAC: " ++ cac)
        else Except.ok v

deriving instance DecidableEq for Except

/-- The prompt the source builds by f-string interpolation (lines 24-30 of
`app.py`), with the two request fields spliced in. -/
def mkPrompt (historical_data future_box_info : String) : String :=
  "\nYou are an expert in evaluating Goodiebox welcome boxes for their ability to attract new members at low Customer Acquisition Cost (CAC). Based on the historical data provided, which includes box features and their corresponding CAC in euros, predict the CAC for the future welcome box. The CAC should be a numerical value in euros, with two decimal places (e.g., 10.50). Consider factors such as the number of products, total retail value, number of unique categories, number of full-size products, number of premium products (>â‚¬20), total weight, average product rating, average brand rating, and average category rating. Return only the numerical CAC value in euros (e.g., 10.50).\n\nHistorical Data: "
    ++ historical_data ++ "\n\nFuture Box Info: " ++ future_box_info ++ "\n"

/-- The payload posted on each of the five calls: model `gpt-4o`, a fixed
system message plus the prompt, `max_tokens` 10, temperature 0.2 and seed
42 (lines 37-52 of `app.py`). -/
def mkPayload (prompt : String) : Payload where
  model := "gpt-4o"
  messages :=
    [⟨"system", "You are an expert in predicting Goodiebox performance, skilled at analyzing historical trends."⟩,
     ⟨"user", prompt⟩]
  max_tokens := 10
  temperature := mkRat 1 5
  seed := 42

/-- The `for _ in range(5)` loop of `predict_box_cac`, collecting the
parsed values: call `i` is answered by `api i`; the first raising iteration
aborts the loop, otherwise the parsed value is appended. `runCalls api i n`
runs `n` remaining iterations starting at call index `i`. -/
def runCalls (api : Nat → ApiResponse) : Nat → Nat → Except String (List Rat)
  | _, 0 => Except.ok []
  | i, n + 1 =>
    match processResponse (api i) with
    | Except.error e => Except.error e
    | Except.ok v =>
      match runCalls api (i + 1) n with
      | Except.error e => Except.error e
      | Except.ok rest => Except.ok (v :: rest)

/-- The payloads actually posted by the loop: each iteration posts the
payload before inspecting the response, and a raising iteration is the
last one. -/
def callTrace (api : Nat → ApiResponse) (p : Payload) : Nat → Nat → List Payload
  | _, 0 => []
  | i, n + 1 =>
    match processResponse (api i) with
    | Except.error _ => [p]
    | Except.ok _ => p :: callTrace api p (i + 1) n

/-- The function `predict_box_cac` of `app.py` (lines 21-80): run the five
calls, and on success average the collected values and format the average
to two decimal places. Any raise inside the body is re-raised by the outer
`except Exception` with the prefix `Prediction error: `. -/
def predict_box_cac (api : Nat → ApiResponse) : Except String String :=
  match runCalls api 0 5 with
  | Except.error e => Except.error ("Prediction error: " ++ e)
  | Except.ok cacs =>
    if cacs.isEmpty then Except.error ("Prediction error: " ++ "No valid CAC values collected")
    else Except.ok (format2 (ratDivNat (cacs.foldl ratAdd 0) cacs.length))

/-- The payloads `predict_box_cac` posts. -/
def predictCalls (api : Nat → ApiResponse) (historical_data future_box_info : String) : List Payload :=
  callTrace api (mkPayload (mkPrompt historical_data future_box_info)) 0 5

/-- Outcome of `request.get_json()` in the endpoint: `raises msg` when
parsing the body raises (malformed JSON), `returns none` when it returns
`None` (no JSON body), `returns (some fields)` when the body is a JSON
object, modelled as an association list of string-valued fields. -/
inductive GetJsonResult where
  | raises (msg : String)
  | returns (data : Option (List (String × String)))
deriving DecidableEq, Repr

/-- An HTTP reply of the service: status code and JSON-object body. -/
structure HttpReply where
  status : Nat
  body : List (String × String)
deriving DecidableEq, Repr

/-- The endpoint `POST /predict_box_score` (`box_score`, lines 82-96 of
`app.py`). A raise from `get_json` is caught by the generic
`except Exception` and becomes a 500; a falsy body (`None` or empty
object) or a body without the key `future_box_info` gives a 400; otherwise
`predict_box_cac` runs, and its raise (if any) becomes a 500. -/
def box_score (req : GetJsonResult) (api : Nat → ApiResponse) : HttpReply :=
  match req with
  | GetJsonResult.raises msg => ⟨500, [("error", msg)]⟩
  | GetJsonResult.returns none => ⟨400, [("error", "Missing future_box_info")]⟩
  | GetJsonResult.returns (some fields) =>
    if fields.isEmpty || (fields.lookup "future_box_info").isNone then
      ⟨400, [("error", "Missing future_box_info")]⟩
    else
      match predict_box_cac api with
      | Except.ok cac => ⟨200, [("predicted_cac", cac)]⟩
      | Except.error e => ⟨500, [("error", e)]⟩

/-- The payloads the endpoint posts to the external API while handling a
request: none on the 400 paths and on a `get_json` raise, the payloads
of the loop otherwise. -/
def boxScoreCalls (req : GetJsonResult) (api : Nat → ApiResponse) : List Payload :=
  match req with
  | GetJsonResult.raises _ => []
  | GetJsonResult.returns none => []
  | GetJsonResult.returns (some fields) =>
    if fields.isEmpty || (fields.lookup "future_box_info").isNone then []
    else
      predictCalls api
        ((fields.lookup "historical_data").getD "No historical data provided")
        ((fields.lookup "future_box_info").getD "")

/-- The endpoint `GET /health` (lines 98-101 of `app.py`). -/
def health_check : HttpReply :=
  ⟨200, [("status", "healthy")]⟩

/-- The process environment as read by the `__main__` block: the two
variables the source consults. `none` models an absent variable. -/
structure Env where
  openai_api_key : Option String
  port : Option String
deriving DecidableEq, Repr

/-- Models Python `int(s)` on decimal strings: optional surrounding
whitespace, optional sign, at least one digit. -/
def pyInt (s : String) : Option Int := Id.run do
  let cs := (pyStrip s).toList
  let (sgn, cs1) : Int × List Char :=
    match cs with
    | '-' :: r => (-1, r)
    | '+' :: r => (1, r)
    | _ => (1, cs)
  if cs1.isEmpty || !cs1.all Char.isDigit then
    return none
  return some (sgn * digitsToNat cs1)

/-- The `__main__` block (lines 103-106 of `app.py`): raise `ValueError`
when `OPENAI_API_KEY` is unset (or empty, which is equally falsy) before
serving anything; otherwise serve on the PORT variable parsed as an integer, defaulting to 5000.
The error value models the raise, the ok value the port served on. -/
def startServer (env : Env) : Except String Int :=
  if env.openai_api_key.getD "" = "" then
    Except.error "OPENAI_API_KEY not set"
  else
    match env.port with
    | none => Except.ok 5000
    | some p =>
      match pyInt p with
      | some n => Except.ok n
      | none => Except.error ("invalid literal for int: " ++ p)

/-- The operation `ratAdd` is ordinary addition of rationals. -/
theorem ratAdd_eq (a b : Rat) : ratAdd a b = a + b := by
  have ha : ((a.den : Nat) : Rat) ≠ 0 := Nat.cast_ne_zero.mpr a.den_nz
  have hb : ((b.den : Nat) : Rat) ≠ 0 := Nat.cast_ne_zero.mpr b.den_nz
  rw [ratAdd, Rat.mkRat_eq_div]
  push_cast
  conv_rhs => rw [← Rat.num_div_den a, ← Rat.num_div_den b, div_add_div _ _ ha hb]
  ring_nf

/-- The operation `ratDivNat` is ordinary division by the cast natural number. -/
theorem ratDivNat_eq (a : Rat) (n : Nat) : ratDivNat a n = a / n := by
  rw [ratDivNat, Rat.mkRat_eq_div]
  push_cast
  rw [← div_div, Rat.num_div_den]

example : predict_box_cac (fun _ => ⟨200, "", "10.50"⟩) = Except.ok "10.50" := by decide
example :
    predict_box_cac
      (fun i => ⟨200, "", ["10.00", "20.00", "30.00", "15.00", "25.00"].getD i ""⟩) =
    Except.ok "20.00" := by decide
example :
    box_score (GetJsonResult.returns (some [("future_box_info", "box")]))
      (fun _ => ⟨200, "", "10.50"⟩) = ⟨200, [("predicted_cac", "10.50")]⟩ := by decide
/-- A response whose status is 200 and whose stripped content parses to a
non-negative value is accepted, yielding exactly the parsed value. -/
theorem processResponse_ok (r : ApiResponse) (v : Rat) (hs : r.status_code = 200)
    (hp : pyFloat (pyStrip r.content) = some v) (hv : 0 ≤ v) :
    processResponse r = Except.ok v := by
  unfold processResponse
  rw [if_neg (by simp [hs])]
  by_cases he : pyStrip r.content = ""
  · rw [he] at hp
    simp [pyFloat, Id.run] at hp
  · rw [if_neg he, hp]
    simp [not_lt.mpr hv]

/-- An accepted response necessarily had status exactly 200. -/
theorem processResponse_status (r : ApiResponse) (v : Rat)
    (h : processResponse r = Except.ok v) : r.status_code = 200 := by
  by_contra hne
  unfold processResponse at h
  rw [if_pos hne] at h
  cases h

/-- A successful run of the loop collected one value per iteration. -/
theorem runCalls_ok_length (api : Nat → ApiResponse) :
    ∀ (n i : Nat) (l : List Rat), runCalls api i n = Except.ok l → l.length = n := by
  intro n
  induction n with
  | zero =>
    intro i l h
    simp only [runCalls] at h
    cases h
    rfl
  | succ n ih =>
    intro i l h
    simp only [runCalls] at h
    cases hp : processResponse (api i) with
    | error e => rw [hp] at h; cases h
    | ok v =>
      rw [hp] at h
      cases hr : runCalls api (i + 1) n with
      | error e => rw [hr] at h; cases h
      | ok rest =>
        rw [hr] at h
        cases h
        simp [ih (i + 1) rest hr]

/-- In a successful run the response of every iteration was accepted. -/
theorem runCalls_ok_all (api : Nat → ApiResponse) :
    ∀ (n i : Nat) (l : List Rat), runCalls api i n = Except.ok l →
      ∀ j, j < n → ∃ v, processResponse (api (i + j)) = Except.ok v := by
  intro n
  induction n with
  | zero =>
    intro i l _ j hj
    exact absurd hj (Nat.not_lt_zero j)
  | succ n ih =>
    intro i l h j hj
    simp only [runCalls] at h
    cases hp : processResponse (api i) with
    | error e => rw [hp] at h; cases h
    | ok v =>
      rw [hp] at h
      cases hr : runCalls api (i + 1) n with
      | error e => rw [hr] at h; cases h
      | ok rest =>
        cases j with
        | zero => exact ⟨v, hp⟩
        | succ j =>
          have hres := ih (i + 1) rest hr j (Nat.lt_of_succ_lt_succ hj)
          rw [show i + (j + 1) = i + 1 + j from by omega]
          exact hres

/-- If some iteration within range must reject its response, the loop
raises. -/
theorem runCalls_error_of_bad (api : Nat → ApiResponse) :
    ∀ (n i j : Nat), j < n → (∀ v, processResponse (api (i + j)) ≠ Except.ok v) →
      ∃ e, runCalls api i n = Except.error e := by
  intro n
  induction n with
  | zero =>
    intro i j hj _
    exact absurd hj (Nat.not_lt_zero j)
  | succ n ih =>
    intro i j hj hbad
    cases hp : processResponse (api i) with
    | error e => exact ⟨e, by simp only [runCalls, hp]⟩
    | ok v =>
      cases j with
      | zero => exact absurd hp (hbad v)
      | succ j =>
        obtain ⟨e, he⟩ := ih (i + 1) j (Nat.lt_of_succ_lt_succ hj)
          (fun w => by
            rw [show i + 1 + j = i + (j + 1) from by omega]
            exact hbad w)
        exact ⟨e, by simp only [runCalls, hp, he]⟩

/-- Every posted payload is the single payload built before the loop. -/
theorem callTrace_mem (api : Nat → ApiResponse) (p : Payload) :
    ∀ (n i : Nat) (q : Payload), q ∈ callTrace api p i n → q = p := by
  intro n
  induction n with
  | zero =>
    intro i q hq
    simp [callTrace] at hq
  | succ n ih =>
    intro i q hq
    simp only [callTrace] at hq
    cases hp : processResponse (api i) with
    | error e =>
      rw [hp] at hq
      simpa using hq
    | ok v =>
      rw [hp] at hq
      cases hq with
      | head => rfl
      | tail _ h => exact ih (i + 1) q h

/-- When the response of every iteration is accepted, the loop posts exactly one
payload per iteration. -/
theorem callTrace_length_of_ok (api : Nat → ApiResponse) (p : Payload) :
    ∀ (n i : Nat), (∀ j, j < n → ∃ v, processResponse (api (i + j)) = Except.ok v) →
      (callTrace api p i n).length = n := by
  intro n
  induction n with
  | zero =>
    intro i _
    rfl
  | succ n ih =>
    intro i h
    obtain ⟨v, hv⟩ := h 0 (Nat.succ_pos n)
    rw [Nat.add_zero] at hv
    simp only [callTrace]
    rw [hv]
    have hlen := ih (i + 1) (fun j hj => by
      rw [show i + 1 + j = i + (j + 1) from by omega]
      exact h (j + 1) (Nat.succ_lt_succ hj))
    simp [hlen]

/-- A request body containing `future_box_info` passes the 400 guard. -/
theorem bodyGuard_false (fields : List (String × String)) (fbi : String)
    (hf : fields.lookup "future_box_info" = some fbi) :
    (fields.isEmpty || (fields.lookup "future_box_info").isNone) = false := by
  have hne : fields ≠ [] := by
    intro h
    subst h
    simp [List.lookup] at hf
  simp [hf, hne]

/-- With a valid body, a successful prediction is returned as a 200 reply
carrying `predicted_cac`. -/
theorem box_score_of_predict_ok (api : Nat → ApiResponse) (fields : List (String × String))
    (fbi cac : String) (hf : fields.lookup "future_box_info" = some fbi)
    (hok : predict_box_cac api = Except.ok cac) :
    box_score (GetJsonResult.returns (some fields)) api = ⟨200, [("predicted_cac", cac)]⟩ := by
  have hc := bodyGuard_false fields fbi hf
  simp only [box_score, hc, Bool.false_eq_true, if_false]
  simp [hok]

/-- With a valid body, a raising prediction is returned as a 500 reply
carrying the error string. -/
theorem box_score_of_predict_error (api : Nat → ApiResponse) (fields : List (String × String))
    (fbi e : String) (hf : fields.lookup "future_box_info" = some fbi)
    (herr : predict_box_cac api = Except.error e) :
    box_score (GetJsonResult.returns (some fields)) api = ⟨500, [("error", e)]⟩ := by
  have hc := bodyGuard_false fields fbi hf
  simp only [box_score, hc, Bool.false_eq_true, if_false]
  simp [herr]

/-- A response with a status other than 200 is never accepted. -/
theorem processResponse_not_ok_of_status (r : ApiResponse) (h : r.status_code ≠ 200) :
    ∀ w, processResponse r ≠ Except.ok w := by
  intro w hw
  unfold processResponse at hw
  rw [if_pos h] at hw
  cases hw

/-- A response whose stripped content is empty, unparseable, or parses to a
negative value is never accepted. -/
theorem processResponse_not_ok_of_content (r : ApiResponse)
    (h : pyStrip r.content = "" ∨ pyFloat (pyStrip r.content) = none ∨
      ∃ v, pyFloat (pyStrip r.content) = some v ∧ v < 0) :
    ∀ w, processResponse r ≠ Except.ok w := by
  intro w hw
  unfold processResponse at hw
  by_cases hs : r.status_code ≠ 200
  · rw [if_pos hs] at hw
    cases hw
  · rw [if_neg hs] at hw
    rcases h with he | hn | ⟨v, hv, hneg⟩
    · rw [if_pos he] at hw
      cases hw
    · by_cases he : pyStrip r.content = ""
      · rw [if_pos he] at hw
        cases hw
      · rw [if_neg he, hn] at hw
        cases hw
    · by_cases he : pyStrip r.content = ""
      · rw [if_pos he] at hw
        cases hw
      · rw [if_neg he, hv] at hw
        simp [hneg] at hw

/-- If some iteration within range must reject its response, the whole
prediction raises, with the prefix added by the outer handler. -/
theorem predict_error_of_bad (api : Nat → ApiResponse) (i : Nat) (hi : i < 5)
    (hbad : ∀ v, processResponse (api i) ≠ Except.ok v) :
    ∃ msg, predict_box_cac api = Except.error msg := by
  obtain ⟨e, he⟩ := runCalls_error_of_bad api 5 0 i hi (fun v => by
    rw [Nat.zero_add]
    exact hbad v)
  exact ⟨"Prediction error: " ++ e, by simp [predict_box_cac, he]⟩

/-- With a valid body, a rejected iteration makes the endpoint answer 500
with only an error field. -/
theorem box_score_500_of_bad (api : Nat → ApiResponse) (fields : List (String × String))
    (fbi : String) (i : Nat) (hf : fields.lookup "future_box_info" = some fbi) (hi : i < 5)
    (hbad : ∀ v, processResponse (api i) ≠ Except.ok v) :
    ∃ msg, box_score (GetJsonResult.returns (some fields)) api = ⟨500, [("error", msg)]⟩ := by
  obtain ⟨msg, hmsg⟩ := predict_error_of_bad api i hi hbad
  exact ⟨msg, box_score_of_predict_error api fields fbi msg hf hmsg⟩

/-- When all five iterations accept, the prediction is the formatted
arithmetic mean of the five collected values. -/
theorem predict_ok_of_all (api : Nat → ApiResponse) (vs : Nat → Rat)
    (h : ∀ i, i < 5 → processResponse (api i) = Except.ok (vs i)) :
    predict_box_cac api = Except.ok (format2 ((vs 0 + vs 1 + vs 2 + vs 3 + vs 4) / 5)) := by
  have h5 : runCalls api 0 5 = Except.ok [vs 0, vs 1, vs 2, vs 3, vs 4] := by
    simp [runCalls, h 0 (by norm_num), h 1 (by norm_num), h 2 (by norm_num),
      h 3 (by norm_num), h 4 (by norm_num)]
  have hsum : ([vs 0, vs 1, vs 2, vs 3, vs 4].foldl ratAdd 0) = vs 0 + vs 1 + vs 2 + vs 3 + vs 4 := by
    simp [List.foldl, ratAdd_eq]
  have hlen : (([vs 0, vs 1, vs 2, vs 3, vs 4] : List Rat).length : Rat) = 5 := by
    norm_num
  simp [predict_box_cac, h5, hsum, ratDivNat_eq, hlen]

example : pyFloat "10.00" = some 10 := by decide
example : pyFloat "10.50" = some (mkRat 21 2) := by decide
example : pyFloat "" = none := by decide
example : pyFloat "abc" = none := by decide
example : pyFloat "-3.5" = some (mkRat (-7) 2) := by decide
example : format2 20 = "20.00" := by decide
example : format2 (mkRat 21 2) = "10.50" := by decide
example : processResponse ⟨200, "", " 10.50 "⟩ = Except.ok (mkRat 21 2) := by decide
example : processResponse ⟨201, "b", "10.50"⟩ = Except.error "OpenAI API error: 201 - b" := by decide
example : processResponse ⟨200, "", "-1"⟩ = Except.error "Invalid CAC: -1" := by decide

/-- C1: for every request in which all five external calls return status
200 with stripped bodies that parse as non-negative decimals, the endpoint
replies 200 with `predicted_cac` equal to the arithmetic mean of the five
parsed values formatted to two decimal places. -/
theorem claim_C1_mean (api : Nat → ApiResponse) (fields : List (String × String))
    (fbi : String) (vs : Nat → Rat)
    (hf : fields.lookup "future_box_info" = some fbi)
    (h : ∀ i, i < 5 → (api i).status_code = 200 ∧
      pyFloat (pyStrip (api i).content) = some (vs i) ∧ 0 ≤ vs i) :
    box_score (GetJsonResult.returns (some fields)) api =
      ⟨200, [("predicted_cac", format2 ((vs 0 + vs 1 + vs 2 + vs 3 + vs 4) / 5))]⟩ :=
  box_score_of_predict_ok api fields fbi _ hf
    (predict_ok_of_all api vs (fun i hi =>
      processResponse_ok (api i) (vs i) (h i hi).1 (h i hi).2.1 (h i hi).2.2))

/-- Witness for C1: responses 10.00, 20.00, 30.00, 15.00, 25.00 average to
"20.00", and five responses 10.50 average to "10.50". -/
theorem claim_C1_mean_witness :
    box_score (GetJsonResult.returns (some [("future_box_info", "box")]))
        (fun i => ⟨200, "", ["10.00", "20.00", "30.00", "15.00", "25.00"].getD i ""⟩) =
      ⟨200, [("predicted_cac", "20.00")]⟩ ∧
    box_score (GetJsonResult.returns (some [("future_box_info", "box")]))
        (fun _ => ⟨200, "", "10.50"⟩) =
      ⟨200, [("predicted_cac", "10.50")]⟩ := by
  constructor
  · refine (claim_C1_mean
      (fun i => ⟨200, "", ["10.00", "20.00", "30.00", "15.00", "25.00"].getD i ""⟩)
      [("future_box_info", "box")] "box"
      (fun i => match i with | 0 => 10 | 1 => 20 | 2 => 30 | 3 => 15 | _ => 25)
      (by decide) (by decide)).trans ?_
    show (⟨200, [("predicted_cac", format2 (((10 : Rat) + 20 + 30 + 15 + 25) / 5))]⟩ : HttpReply) =
      ⟨200, [("predicted_cac", "20.00")]⟩
    rw [show ((10 : Rat) + 20 + 30 + 15 + 25) / 5 = 20 from by norm_num]
    decide
  · refine (claim_C1_mean (fun _ => ⟨200, "", "10.50"⟩)
      [("future_box_info", "box")] "box" (fun _ => mkRat 21 2)
      (by decide) (by decide)).trans ?_
    show (⟨200, [("predicted_cac",
        format2 ((mkRat 21 2 + mkRat 21 2 + mkRat 21 2 + mkRat 21 2 + mkRat 21 2 : Rat) / 5))]⟩ :
        HttpReply) = ⟨200, [("predicted_cac", "10.50")]⟩
    rw [show ((mkRat 21 2 : Rat) + mkRat 21 2 + mkRat 21 2 + mkRat 21 2 + mkRat 21 2) / 5 = mkRat 21 2
      from by rw [Rat.mkRat_eq_div]; norm_num]
    decide

/-- C2: if any one of the five responses has stripped content that is
empty, non-numeric, or parses to a negative number, the endpoint aborts
with a 500 reply whose body is exactly one error field — no partial
average and no `predicted_cac` are returned. -/
theorem claim_C2_bad_content (api : Nat → ApiResponse) (fields : List (String × String))
    (fbi : String) (hf : fields.lookup "future_box_info" = some fbi)
    (h : ∃ i, i < 5 ∧ (pyStrip (api i).content = "" ∨
      pyFloat (pyStrip (api i).content) = none ∨
      ∃ v, pyFloat (pyStrip (api i).content) = some v ∧ v < 0)) :
    ∃ msg, box_score (GetJsonResult.returns (some fields)) api = ⟨500, [("error", msg)]⟩ := by
  obtain ⟨i, hi, hbad⟩ := h
  exact box_score_500_of_bad api fields fbi i hf hi
    (processResponse_not_ok_of_content (api i) hbad)

/-- Witness for C2: a non-numeric first response aborts with a 500. -/
theorem claim_C2_bad_content_witness :
    ∃ msg, box_score (GetJsonResult.returns (some [("future_box_info", "box")]))
      (fun _ => ⟨200, "", "abc"⟩) = ⟨500, [("error", msg)]⟩ :=
  claim_C2_bad_content (fun _ => ⟨200, "", "abc"⟩) [("future_box_info", "box")] "box"
    (by decide) ⟨0, by norm_num, Or.inr (Or.inl (by decide))⟩

/-- C3: a request whose JSON body is absent (`get_json` returned `None`),
empty, or lacks the key `future_box_info` gets a 400 reply with an error
field, and no outbound call is made. -/
theorem claim_C3_missing_field (api : Nat → ApiResponse) (data : Option (List (String × String)))
    (h : data = none ∨ ∃ fields, data = some fields ∧ fields.lookup "future_box_info" = none) :
    box_score (GetJsonResult.returns data) api = ⟨400, [("error", "Missing future_box_info")]⟩ ∧
    boxScoreCalls (GetJsonResult.returns data) api = [] := by
  rcases h with rfl | ⟨fields, rfl, hl⟩
  · exact ⟨rfl, rfl⟩
  · constructor
    · simp [box_score, hl]
    · simp [boxScoreCalls, hl]

/-- Witness for C3: an absent JSON body gets a 400 and no outbound call. -/
theorem claim_C3_missing_field_witness :
    box_score (GetJsonResult.returns none) (fun _ => ⟨200, "", "10.50"⟩) =
      ⟨400, [("error", "Missing future_box_info")]⟩ ∧
    boxScoreCalls (GetJsonResult.returns none) (fun _ => ⟨200, "", "10.50"⟩) = [] :=
  claim_C3_missing_field (fun _ => ⟨200, "", "10.50"⟩) none (Or.inl rfl)

/-- C4: if any one of the five external calls returns a non-2xx status,
the endpoint replies 500 with a JSON error body. -/
theorem claim_C4_non2xx (api : Nat → ApiResponse) (fields : List (String × String))
    (fbi : String) (hf : fields.lookup "future_box_info" = some fbi)
    (h : ∃ i, i < 5 ∧ ((api i).status_code < 200 ∨ 300 ≤ (api i).status_code)) :
    ∃ msg, box_score (GetJsonResult.returns (some fields)) api = ⟨500, [("error", msg)]⟩ := by
  obtain ⟨i, hi, hs⟩ := h
  have hne : (api i).status_code ≠ 200 := by omega
  exact box_score_500_of_bad api fields fbi i hf hi
    (processResponse_not_ok_of_status (api i) hne)

/-- Witness for C4: a 404 on the first call gives an overall 500. -/
theorem claim_C4_non2xx_witness :
    ∃ msg, box_score (GetJsonResult.returns (some [("future_box_info", "box")]))
      (fun _ => ⟨404, "not found", ""⟩) = ⟨500, [("error", msg)]⟩ :=
  claim_C4_non2xx (fun _ => ⟨404, "not found", ""⟩) [("future_box_info", "box")] "box"
    (by decide) ⟨0, by norm_num, Or.inr (by decide)⟩

/-- C5 counterexample: a malformed (non-JSON) request body — on which
`get_json` raises `BadRequest`, caught by the generic
`except Exception` — yields 500, not the 400 the claim states. -/
theorem claim_C5_counterexample :
    (box_score (GetJsonResult.raises "Failed to decode JSON object")
      (fun _ => ⟨200, "", "10.50"⟩)).status = 500 ∧
    (box_score (GetJsonResult.raises "Failed to decode JSON object")
      (fun _ => ⟨200, "", "10.50"⟩)).status ≠ 400 := by
  decide

/-- C5 (amended): every reply has status 200, 400 or 500; a malformed
(non-JSON) request body yields a 500 with the raised message as the error
field, because the `BadRequest` raised by `get_json` is caught by the
generic `except Exception` clause of the handler, and 400 arises only from a
falsy parsed body or a body lacking `future_box_info`. -/
theorem claim_C5_two_statuses :
    (∀ req api, (box_score req api).status = 200 ∨ (box_score req api).status = 400 ∨
      (box_score req api).status = 500) ∧
    (∀ msg api, box_score (GetJsonResult.raises msg) api = ⟨500, [("error", msg)]⟩) := by
  constructor
  · intro req api
    cases req with
    | raises msg => right; right; rfl
    | returns data =>
      cases data with
      | none => right; left; rfl
      | some fields =>
        cases hb : (fields.isEmpty || (fields.lookup "future_box_info").isNone) with
        | true =>
          right; left
          simp [box_score, hb]
        | false =>
          cases hp : predict_box_cac api with
          | ok cac =>
            left
            simp [box_score, hb, hp]
          | error e =>
            right; right
            simp [box_score, hb, hp]
  · intro msg api
    rfl

/-- C6: `GET /health` always replies 200 with body `status: healthy`; by
construction the handler consults neither the external API nor the
environment. -/
theorem claim_C6_health : health_check = ⟨200, [("status", "healthy")]⟩ := rfl

/-- C7: on every successful prediction the handler posts exactly five
payloads, each carrying temperature 0.2 and seed 42. The calls are
sequential by construction of the loop. -/
theorem claim_C7_five_calls (req : GetJsonResult) (api : Nat → ApiResponse)
    (h : (box_score req api).status = 200) :
    (boxScoreCalls req api).length = 5 ∧
      ∀ p ∈ boxScoreCalls req api, p.temperature = 0.2 ∧ p.seed = 42 := by
  have htemp : mkRat 1 5 = (0.2 : Rat) := by
    rw [Rat.mkRat_eq_div]
    norm_num
  cases req with
  | raises msg => simp [box_score] at h
  | returns data =>
    cases data with
    | none => simp [box_score] at h
    | some fields =>
      cases hb : (fields.isEmpty || (fields.lookup "future_box_info").isNone) with
      | true => simp [box_score, hb] at h
      | false =>
        cases hp : predict_box_cac api with
        | error e => simp [box_score, hb, hp] at h
        | ok cac =>
          cases hr : runCalls api 0 5 with
          | error e => simp [predict_box_cac, hr] at hp
          | ok l =>
            have hall : ∀ j, j < 5 → ∃ v, processResponse (api j) = Except.ok v := by
              intro j hj
              have := runCalls_ok_all api 5 0 l hr j hj
              rwa [Nat.zero_add] at this
            have hcalls : boxScoreCalls (GetJsonResult.returns (some fields)) api =
                callTrace api
                  (mkPayload (mkPrompt ((fields.lookup "historical_data").getD
                    "No historical data provided")
                    ((fields.lookup "future_box_info").getD ""))) 0 5 := by
              simp [boxScoreCalls, hb, predictCalls]
            constructor
            · rw [hcalls]
              exact callTrace_length_of_ok api _ 5 0 (fun j hj => by
                rw [Nat.zero_add]
                exact hall j hj)
            · intro p hp'
              rw [hcalls] at hp'
              have := callTrace_mem api _ 5 0 p hp'
              rw [this]
              exact ⟨htemp, rfl⟩

/-- Witness for C7: a request answered with five valid responses posts
five payloads, all with temperature 0.2 and seed 42. -/
theorem claim_C7_five_calls_witness :
    (boxScoreCalls (GetJsonResult.returns (some [("future_box_info", "box")]))
      (fun _ => ⟨200, "", "10.50"⟩)).length = 5 ∧
    ∀ p ∈ boxScoreCalls (GetJsonResult.returns (some [("future_box_info", "box")]))
      (fun _ => ⟨200, "", "10.50"⟩), p.temperature = 0.2 ∧ p.seed = 42 :=
  claim_C7_five_calls (GetJsonResult.returns (some [("future_box_info", "box")]))
    (fun _ => ⟨200, "", "10.50"⟩) (by decide)

/-- C8: with `OPENAI_API_KEY` absent the process raises at startup before
serving; with the key present and `PORT` absent it serves on port 5000. -/
theorem claim_C8_env (env : Env) :
    (env.openai_api_key = none → startServer env = Except.error "OPENAI_API_KEY not set") ∧
    (∀ k, env.openai_api_key = some k → k ≠ "" → env.port = none →
      startServer env = Except.ok 5000) := by
  constructor
  · intro h
    simp [startServer, h]
  · intro k hk hne hp
    simp [startServer, hk, hne, hp]

/-- Witness for C8: an empty environment fails fast; a key with no PORT
serves on 5000. -/
theorem claim_C8_env_witness :
    startServer ⟨none, none⟩ = Except.error "OPENAI_API_KEY not set" ∧
    startServer ⟨some "sk-test", none⟩ = Except.ok 5000 :=
  ⟨(claim_C8_env ⟨none, none⟩).1 rfl,
   (claim_C8_env ⟨some "sk-test", none⟩).2 "sk-test" rfl (by decide) rfl⟩

/-- C9: success requires every one of the five responses to have status
exactly 200; in particular an all-201 API — a 2xx status — still yields an
overall 500, so the check in the code is strictly stronger than non-2xx. -/
theorem claim_C9_strict_200 :
    (∀ req api, (box_score req api).status = 200 → ∀ i, i < 5 → (api i).status_code = 200) ∧
    (box_score (GetJsonResult.returns (some [("future_box_info", "box")]))
      (fun _ => ⟨201, "", "10.50"⟩)).status = 500 := by
  constructor
  · intro req api h i hi
    cases req with
    | raises msg => simp [box_score] at h
    | returns data =>
      cases data with
      | none => simp [box_score] at h
      | some fields =>
        cases hb : (fields.isEmpty || (fields.lookup "future_box_info").isNone) with
        | true => simp [box_score, hb] at h
        | false =>
          cases hp : predict_box_cac api with
          | error e => simp [box_score, hb, hp] at h
          | ok cac =>
            cases hr : runCalls api 0 5 with
            | error e => simp [predict_box_cac, hr] at hp
            | ok l =>
              obtain ⟨v, hv⟩ := runCalls_ok_all api 5 0 l hr i hi
              rw [Nat.zero_add] at hv
              exact processResponse_status (api i) v hv
  · decide

/-- Witness for C9: with an all-200 API and a successful reply, the third
call indeed had status 200. -/
theorem claim_C9_strict_200_witness :
    ((fun _ : Nat => (⟨200, "", "10.50"⟩ : ApiResponse)) 3).status_code = 200 :=
  claim_C9_strict_200.1 (GetJsonResult.returns (some [("future_box_info", "box")]))
    (fun _ => ⟨200, "", "10.50"⟩) (by decide) 3 (by norm_num)

/-- C10: a loop run that completes without raising collected exactly five
values, so the `No valid CAC values collected` branch is unreachable and
the division by `len(cacs)` never divides by zero. -/
theorem claim_C10_loop_complete (api : Nat → ApiResponse) (l : List Rat)
    (h : runCalls api 0 5 = Except.ok l) :
    l.length = 5 ∧ l ≠ [] ∧ ((l.length : Rat) ≠ 0) ∧
      predict_box_cac api = Except.ok (format2 (ratDivNat (l.foldl ratAdd 0) l.length)) := by
  have hlen := runCalls_ok_length api 5 0 l h
  have hne : l ≠ [] := by
    intro hnil
    rw [hnil] at hlen
    cases hlen
  refine ⟨hlen, hne, ?_, ?_⟩
  · rw [hlen]
    norm_num
  · have hie : l.isEmpty = false := by
      cases l with
      | nil => cases hlen
      | cons a t => rfl
    simp [predict_box_cac, h, hie]

/-- Witness for C10: five accepted responses give a five-element list and
a successful formatted average. -/
theorem claim_C10_loop_complete_witness :
    ([mkRat 21 2, mkRat 21 2, mkRat 21 2, mkRat 21 2, mkRat 21 2] : List Rat).length = 5 ∧
    ([mkRat 21 2, mkRat 21 2, mkRat 21 2, mkRat 21 2, mkRat 21 2] : List Rat) ≠ [] ∧
    ((([mkRat 21 2, mkRat 21 2, mkRat 21 2, mkRat 21 2, mkRat 21 2] : List Rat).length : Rat) ≠ 0) ∧
    predict_box_cac (fun _ => ⟨200, "", "10.50"⟩) = Except.ok (format2 (ratDivNat
      (([mkRat 21 2, mkRat 21 2, mkRat 21 2, mkRat 21 2, mkRat 21 2] : List Rat).foldl ratAdd 0)
      ([mkRat 21 2, mkRat 21 2, mkRat 21 2, mkRat 21 2, mkRat 21 2] : List Rat).length)) :=
  claim_C10_loop_complete (fun _ => ⟨200, "", "10.50"⟩)
    [mkRat 21 2, mkRat 21 2, mkRat 21 2, mkRat 21 2, mkRat 21 2] (by decide)
